import Mathlib

/-!
Shallow embedding of `src/analyze_image.py` (rekognition-image-pipeline).

The script reads configuration from the process environment, enumerates
image files from a fixed local directory, and for each file performs
Upload (S3) → Analyze (Rekognition detect_labels) → Record (DynamoDB
put_item), with a per-file try/except boundary in `main`.

Modelling choices:
* The environment is a partial map `String → Option String`
  (`os.environ.get`).
* The filesystem is a record: whether `images/` exists, and the two glob
  result lists (`*.jpg` then `*.png`), each a list of basenames in
  enumeration order (the globs are non-recursive, so the path of an
  entry named `n` is `images/` ++ `n`).
* Each external service is an oracle in `World` deciding, per request,
  whether the SDK call raises (Python exception, embedded as
  `Except.error` carrying the message) or succeeds and with what value.
* Every external SDK call performed is recorded as an `Event`; the
  failure line printed by the per-file `except` block in `main` is also
  recorded (`Event.logFailure`).  `Event.s3Delete` exists in the event
  vocabulary so that "no compensating deletion" is expressible; the
  source contains no delete call, so no definition ever emits it.
* `datetime.utcnow().isoformat()` is the oracle `World.utcNowIso`
  applied to a call counter (the clock) threaded through the run; the
  source appends the literal `"Z"` to it.  ISO-8601 formatting itself is
  delegated to the Python standard library and not re-modelled.
* Confidence floats are idealised as rationals; Python's `round(x, 2)`
  (round-half-to-even at the second decimal) is `round2`.
* `sys.exit(1)` / `sys.exit(0)` / normal completion are the
  constructors of `EnumResult` and `RunResult`.
-/

namespace RekognitionPipeline

/-- The process environment: `os.environ.get`. -/
abbrev Env := String → Option String

/-- Python truthiness of `os.environ.get(var)`: `None` and `""` are falsy. -/
def truthy : Option String → Bool
  | none => false
  | some s => !s.isEmpty

/-- The `required_vars` list of `validate_environment` (line 10). -/
def required_vars : List String :=
  ["S3_BUCKET", "AWS_REGION", "DYNAMODB_TABLE", "BRANCH_NAME"]

/-- The configuration dict returned by `validate_environment` (lines 18-23). -/
structure Config where
  bucket : String
  region : String
  dynamodb_table : String
  branch_name : String
deriving Repr, DecidableEq

/-- `validate_environment` (lines 8-23): collects the required variables that
are not truthy; a non-empty `missing` list means `sys.exit(1)` (`none`),
otherwise the config record is built from the environment. -/
def validate_environment (env : Env) : Option Config :=
  let missing := required_vars.filter (fun v => !truthy (env v))
  if missing.isEmpty then
    some { bucket := (env "S3_BUCKET").getD "",
           region := (env "AWS_REGION").getD "",
           dynamodb_table := (env "DYNAMODB_TABLE").getD "",
           branch_name := (env "BRANCH_NAME").getD "" }
  else
    none

/-- The local filesystem as seen by `get_image_files`: existence of the
`images/` directory and the two non-recursive glob results, as lists of
basenames in enumeration order. -/
structure FileSystem where
  imagesDirExists : Bool
  jpgFiles : List String
  pngFiles : List String
deriving Repr, DecidableEq

/-- Outcome of `get_image_files` (lines 25-41): `sys.exit(1)`,
`sys.exit(0)`, or the returned list of files. -/
inductive EnumResult where
  | exitFail
  | exitSuccess
  | files (names : List String)
deriving Repr, DecidableEq

/-- `get_image_files` (lines 25-41): missing directory exits with status 1;
the candidate list is the `*.jpg` glob followed by the `*.png` glob; an
empty list exits with status 0; otherwise the list is returned. -/
def get_image_files (fs : FileSystem) : EnumResult :=
  if fs.imagesDirExists then
    let image_files := fs.jpgFiles ++ fs.pngFiles
    if image_files.isEmpty then .exitSuccess else .files image_files
  else
    .exitFail

/-- A label as returned by the Rekognition SDK: `Name` and `Confidence`. -/
structure RawLabel where
  name : String
  confidence : ℚ
deriving Repr, DecidableEq

/-- A formatted label as built on lines 73-79. -/
structure Label where
  name : String
  confidence : ℚ
deriving Repr, DecidableEq

/-- Round-half-to-even to an integer: the rounding mode of Python's
built-in `round`. -/
def roundHalfEven (q : ℚ) : ℤ :=
  if q - (⌊q⌋ : ℚ) < 1/2 then ⌊q⌋
  else if 1/2 < q - (⌊q⌋ : ℚ) then ⌊q⌋ + 1
  else if ⌊q⌋ % 2 = 0 then ⌊q⌋ else ⌊q⌋ + 1

/-- Python's `round(x, 2)` on an idealised (rational) float. -/
def round2 (q : ℚ) : ℚ := ((roundHalfEven (q * 100) : ℤ) : ℚ) / 100

/-- The `formatted_labels` comprehension (lines 73-79): keep each label's
name, round its confidence to 2 decimals. -/
def formatLabels (ls : List RawLabel) : List Label :=
  ls.map (fun l => { name := l.name, confidence := round2 l.confidence })

/-- Decimal rendering of a stored confidence (a multiple of 1/100), as
`json.dumps` prints the corresponding float: trailing zero digits of the
fraction dropped, integers printed with `.0`. -/
def confRepr (q : ℚ) : String :=
  let k : ℤ := ⌊q * 100⌋
  let sign := if k < 0 then "-" else ""
  let a := k.natAbs
  let ip := a / 100
  let fr := a % 100
  if fr = 0 then sign ++ toString ip ++ ".0"
  else if fr % 10 = 0 then sign ++ toString ip ++ "." ++ toString (fr / 10)
  else sign ++ toString ip ++ "." ++ (if fr < 10 then "0" else "") ++ toString fr

/-- `json.dumps` of one formatted label dict. -/
def dumpsLabel (l : Label) : String :=
  "\x7b\"Name\": \"" ++ l.name ++ "\", \"Confidence\": " ++ confRepr l.confidence ++ "\x7d"

/-- `json.dumps(labels)` (line 106): the label list serialized as one
JSON text. -/
def dumpsLabels (ls : List Label) : String :=
  "[" ++ String.intercalate ", " (ls.map dumpsLabel) ++ "]"

/-- A DynamoDB attribute value; the source only ever uses the string
variant `{'S': ...}` (lines 104-107). -/
inductive AttrVal where
  | S (s : String)
deriving Repr, DecidableEq

/-- One external SDK call (or the per-file failure log line of `main`).
`s3Delete` is never emitted by any definition below, mirroring the
absence of any delete call in the source. -/
inductive Event where
  | s3Upload (localPath bucket key : String)
  | detectLabels (bucket key : String) (maxLabels minConfidence : Nat)
  | s3Delete (bucket key : String)
  | dynamoPut (table : String) (item : List (String × AttrVal))
  | logFailure (filename err : String)
deriving Repr, DecidableEq

/-- The run's surroundings: environment, filesystem, and one oracle per
external service deciding each request's outcome, plus the
`datetime.utcnow().isoformat()` oracle indexed by call count. -/
structure World where
  env : Env
  fs : FileSystem
  uploadResult : String → String → String → Except String Unit
  detectResult : String → String → Except String (List RawLabel)
  putItemResult : String → List (String × AttrVal) → Except String Unit
  utcNowIso : Nat → String

/-- `upload_to_s3` (lines 43-51): one `upload_file` call; on success the
`s3://bucket/key` URI is returned, on failure the exception re-raises. -/
def upload_to_s3 (w : World) (local_path bucket s3_key : String) :
    List Event × Except String String :=
  ([Event.s3Upload local_path bucket s3_key],
   match w.uploadResult local_path bucket s3_key with
   | .ok _ => .ok ("s3://" ++ bucket ++ "/" ++ s3_key)
   | .error e => .error e)

/-- `analyze_image_with_rekognition` (lines 53-85): one `detect_labels`
call referencing the stored object by `(Bucket, Name)` with
`MaxLabels=10` and `MinConfidence=70`; on success the labels are
formatted, on failure the exception re-raises. -/
def analyze_image_with_rekognition (w : World) (bucket s3_key : String) :
    List Event × Except String (List Label) :=
  ([Event.detectLabels bucket s3_key 10 70],
   match w.detectResult bucket s3_key with
   | .ok labels => .ok (formatLabels labels)
   | .error e => .error e)

/-- The `item` dict built on lines 94-99. -/
structure ResultItem where
  filename : String
  timestamp : String
  labels : List Label
  branch : String
deriving Repr, DecidableEq

/-- The `Item` argument of `put_item` (lines 103-108): every attribute a
string value; the labels marshalled as the single `json.dumps` blob. -/
def marshallItem (it : ResultItem) : List (String × AttrVal) :=
  [("filename", AttrVal.S it.filename),
   ("timestamp", AttrVal.S it.timestamp),
   ("labels", AttrVal.S (dumpsLabels it.labels)),
   ("branch", AttrVal.S it.branch)]

/-- `store_results_in_dynamodb` (lines 87-120): generate the timestamp
(`utcnow().isoformat() + 'Z'`, advancing the clock), build the item, and
issue one `put_item`; on failure the exception re-raises. -/
def store_results_in_dynamodb (w : World) (clock : Nat) (table_name filename : String)
    (labels : List Label) (branch_name : String) :
    List Event × Nat × Except String ResultItem :=
  let timestamp := w.utcNowIso clock ++ "Z"
  let item : ResultItem :=
    { filename := filename, timestamp := timestamp, labels := labels, branch := branch_name }
  ([Event.dynamoPut table_name (marshallItem item)],
   clock + 1,
   match w.putItemResult table_name (marshallItem item) with
   | .ok _ => .ok item
   | .error e => .error e)

/-- `process_single_image` (lines 122-151): the per-file pipeline.  The
key is `rekognition-input/` ++ basename; the three steps run strictly in
sequence and any step's exception aborts the rest of the file's steps. -/
def process_single_image (w : World) (clock : Nat) (imageName : String) (config : Config) :
    List Event × Nat × Except String Unit :=
  let bucket := config.bucket
  let dynamodb_table := config.dynamodb_table
  let branch_name := config.branch_name
  let s3_key := "rekognition-input/" ++ imageName
  let up := upload_to_s3 w ("images/" ++ imageName) bucket s3_key
  match up.2 with
  | .error e => (up.1, clock, .error e)
  | .ok _ =>
    let an := analyze_image_with_rekognition w bucket s3_key
    match an.2 with
    | .error e => (up.1 ++ an.1, clock, .error e)
    | .ok labels =>
      let st := store_results_in_dynamodb w clock dynamodb_table s3_key labels branch_name
      match st.2.2 with
      | .error e => (up.1 ++ an.1 ++ st.1, st.2.1, .error e)
      | .ok _ => (up.1 ++ an.1 ++ st.1, st.2.1, .ok ())

/-- The per-file loop of `main` (lines 170-181): each file is processed
under a try/except that logs the failure and continues. -/
def runLoop (w : World) (config : Config) (clock : Nat) : List String → List Event × Nat
  | [] => ([], clock)
  | n :: rest =>
    let r := process_single_image w clock n config
    let failLog : List Event :=
      match r.2.2 with
      | .ok _ => []
      | .error e => [Event.logFailure n e]
    let tailRun := runLoop w config r.2.1 rest
    (r.1 ++ failLog ++ tailRun.1, tailRun.2)

/-- The clock value after processing a list of files, starting from
`clock`. -/
def clockAfter (w : World) (config : Config) (clock : Nat) : List String → Nat
  | [] => clock
  | n :: rest => clockAfter w config (process_single_image w clock n config).2.1 rest

/-- Outcome of a run of `main`: `sys.exit(1)` from `validate_environment`,
`sys.exit(1)` from `get_image_files`, `sys.exit(0)` from
`get_image_files`, or normal completion after printing the final
summary (process exit status 0). -/
inductive RunResult where
  | configFailure
  | dirMissing
  | nothingToDo
  | completed
deriving Repr, DecidableEq

/-- `main` (lines 153-185): validate the environment, enumerate files,
then run the per-file loop; the loop never aborts the run. -/
def main (w : World) : List Event × RunResult :=
  match validate_environment w.env with
  | none => ([], .configFailure)
  | some config =>
    match get_image_files w.fs with
    | .exitFail => ([], .dirMissing)
    | .exitSuccess => ([], .nothingToDo)
    | .files names => ((runLoop w config 0 names).1, .completed)

/-! Concrete worlds used to evaluate the theorems on closed inputs. -/

/-- A run in which the environment is fully set, `images/` holds `b.jpg`
and `a.png`, every upload and record call succeeds, and label detection
fails for `a.png` only. -/
def happyWorld : World where
  env := fun v =>
    if v = "S3_BUCKET" then some "bkt"
    else if v = "AWS_REGION" then some "us-east-1"
    else if v = "DYNAMODB_TABLE" then some "tbl"
    else if v = "BRANCH_NAME" then some "main-branch"
    else none
  fs := { imagesDirExists := true, jpgFiles := ["b.jpg"], pngFiles := ["a.png"] }
  uploadResult := fun _ _ _ => .ok ()
  detectResult := fun _ key =>
    if key = "rekognition-input/a.png" then .error "boom"
    else .ok [{ name := "Cat", confidence := 977/10 }, { name := "Pet", confidence := 90 }]
  putItemResult := fun _ _ => .ok ()
  utcNowIso := fun n => "2026-10-12T00:00:0" ++ toString n

/-- The configuration that `validate_environment` builds from
`happyWorld.env`. -/
def happyConfig : Config :=
  { bucket := "bkt", region := "us-east-1", dynamodb_table := "tbl",
    branch_name := "main-branch" }

/-- `happyWorld` with `S3_BUCKET` absent from the environment. -/
def missingEnvWorld : World :=
  { happyWorld with env := fun v => if v = "S3_BUCKET" then none else happyWorld.env v }

/-- `happyWorld` with `S3_BUCKET` present but set to the empty string. -/
def emptyEnvWorld : World :=
  { happyWorld with env := fun v => if v = "S3_BUCKET" then some "" else happyWorld.env v }

/-! Helper lemmas. -/

theorem roundHalfEven_ge_floor (x : ℚ) : ⌊x⌋ ≤ roundHalfEven x := by
  unfold roundHalfEven
  split_ifs <;> omega

theorem roundHalfEven_le_floor_add_one (x : ℚ) : roundHalfEven x ≤ ⌊x⌋ + 1 := by
  unfold roundHalfEven
  split_ifs <;> omega

theorem roundHalfEven_intCast (n : ℤ) : roundHalfEven (n : ℚ) = n := by
  unfold roundHalfEven
  simp

theorem roundHalfEven_nonneg (x : ℚ) (h : 0 ≤ x) : 0 ≤ roundHalfEven x := by
  have h1 := roundHalfEven_ge_floor x
  have h2 : (0 : ℤ) ≤ ⌊x⌋ := Int.floor_nonneg.mpr h
  omega

theorem roundHalfEven_le (x : ℚ) (n : ℤ) (h : x ≤ (n : ℚ)) : roundHalfEven x ≤ n := by
  have hf : ⌊x⌋ ≤ n := by
    have := Int.floor_le_floor h
    simpa using this
  rcases lt_or_eq_of_le hf with hlt | heq
  · have := roundHalfEven_le_floor_add_one x
    omega
  · have hx : x = (n : ℚ) := by
      refine le_antisymm h ?_
      calc (n : ℚ) = (⌊x⌋ : ℚ) := by exact_mod_cast heq.symm
        _ ≤ x := Int.floor_le x
    rw [hx, roundHalfEven_intCast]

theorem process_upload_error (w : World) (clock : Nat) (imageName : String) (config : Config)
    (e : String)
    (hu : w.uploadResult ("images/" ++ imageName) config.bucket
            ("rekognition-input/" ++ imageName) = .error e) :
    process_single_image w clock imageName config =
      ([Event.s3Upload ("images/" ++ imageName) config.bucket
          ("rekognition-input/" ++ imageName)], clock, .error e) := by
  simp [process_single_image, upload_to_s3, hu]

theorem process_detect_error (w : World) (clock : Nat) (imageName : String) (config : Config)
    (u : Unit) (e : String)
    (hu : w.uploadResult ("images/" ++ imageName) config.bucket
            ("rekognition-input/" ++ imageName) = .ok u)
    (hd : w.detectResult config.bucket ("rekognition-input/" ++ imageName) = .error e) :
    process_single_image w clock imageName config =
      ([Event.s3Upload ("images/" ++ imageName) config.bucket
          ("rekognition-input/" ++ imageName),
        Event.detectLabels config.bucket ("rekognition-input/" ++ imageName) 10 70],
       clock, .error e) := by
  simp [process_single_image, upload_to_s3, analyze_image_with_rekognition, hu, hd]

theorem process_detect_ok (w : World) (clock : Nat) (imageName : String) (config : Config)
    (u : Unit) (rawLabels : List RawLabel)
    (hu : w.uploadResult ("images/" ++ imageName) config.bucket
            ("rekognition-input/" ++ imageName) = .ok u)
    (hd : w.detectResult config.bucket ("rekognition-input/" ++ imageName) = .ok rawLabels) :
    process_single_image w clock imageName config =
      ([Event.s3Upload ("images/" ++ imageName) config.bucket
          ("rekognition-input/" ++ imageName),
        Event.detectLabels config.bucket ("rekognition-input/" ++ imageName) 10 70,
        Event.dynamoPut config.dynamodb_table
          (marshallItem
            { filename := "rekognition-input/" ++ imageName,
              timestamp := w.utcNowIso clock ++ "Z",
              labels := formatLabels rawLabels,
              branch := config.branch_name })],
       clock + 1,
       match w.putItemResult config.dynamodb_table
               (marshallItem
                 { filename := "rekognition-input/" ++ imageName,
                   timestamp := w.utcNowIso clock ++ "Z",
                   labels := formatLabels rawLabels,
                   branch := config.branch_name }) with
       | .ok _ => .ok ()
       | .error e => .error e) := by
  simp only [process_single_image, upload_to_s3, analyze_image_with_rekognition,
    store_results_in_dynamodb, hu, hd]
  rcases hp : w.putItemResult config.dynamodb_table
      (marshallItem
        { filename := "rekognition-input/" ++ imageName,
          timestamp := w.utcNowIso clock ++ "Z",
          labels := formatLabels rawLabels,
          branch := config.branch_name }) with e | u2 <;>
    simp [hp]

theorem upload_event_mem_process (w : World) (clock : Nat) (imageName : String)
    (config : Config) :
    Event.s3Upload ("images/" ++ imageName) config.bucket ("rekognition-input/" ++ imageName)
      ∈ (process_single_image w clock imageName config).1 := by
  rcases hu : w.uploadResult ("images/" ++ imageName) config.bucket
      ("rekognition-input/" ++ imageName) with e | u
  · rw [process_upload_error w clock imageName config e hu]
    simp
  · rcases hd : w.detectResult config.bucket ("rekognition-input/" ++ imageName) with
      e | rawLabels
    · rw [process_detect_error w clock imageName config u e hu hd]
      simp
    · rw [process_detect_ok w clock imageName config u rawLabels hu hd]
      simp

theorem runLoop_upload_mem (w : World) (config : Config) :
    ∀ (names : List String) (clock : Nat) (n : String), n ∈ names →
      Event.s3Upload ("images/" ++ n) config.bucket ("rekognition-input/" ++ n) ∈
        (runLoop w config clock names).1 := by
  intro names
  induction names with
  | nil => intro clock n h; cases h
  | cons m rest ih =>
    intro clock n h
    rw [runLoop]
    rcases List.mem_cons.mp h with rfl | hmem
    · exact List.mem_append_left _ (List.mem_append_left _ (upload_event_mem_process w clock n config))
    · exact List.mem_append_right _ (ih _ n hmem)

theorem runLoop_logs_failure (w : World) (config : Config) :
    ∀ (l1 : List String) (clock : Nat) (n : String) (l2 : List String) (e : String),
      (process_single_image w (clockAfter w config clock l1) n config).2.2 = .error e →
      Event.logFailure n e ∈ (runLoop w config clock (l1 ++ n :: l2)).1 := by
  intro l1
  induction l1 with
  | nil =>
    intro clock n l2 e h
    rw [clockAfter] at h
    rw [List.nil_append, runLoop, h]
    exact List.mem_append_left _ (List.mem_append_right _ (List.mem_singleton.mpr rfl))
  | cons m rest ih =>
    intro clock n l2 e h
    rw [clockAfter] at h
    rw [List.cons_append, runLoop]
    exact List.mem_append_right _ (ih _ n l2 e h)

theorem validate_environment_eq_none (env : Env) (v : String) (hmem : v ∈ required_vars)
    (hmiss : truthy (env v) = false) : validate_environment env = none := by
  have hv : v ∈ required_vars.filter (fun u => !truthy (env u)) :=
    List.mem_filter.mpr ⟨hmem, by simp [hmiss]⟩
  have hne : (required_vars.filter (fun u => !truthy (env u))).isEmpty = false := by
    rcases hfilter : required_vars.filter (fun u => !truthy (env u)) with _ | ⟨a, l⟩
    · rw [hfilter] at hv; cases hv
    · rfl
  simp [validate_environment, hne]

theorem main_eq_configFailure (w : World) (h : validate_environment w.env = none) :
    main w = ([], .configFailure) := by
  simp [main, h]

/-! The claim theorems. -/

/-- Claim C4: if any of the four required configuration parameters is
missing (not truthy in the environment), `validate_environment` exits
with status 1 and the run performs no external call at all: the trace of
`main` is empty. -/
theorem C4_missing_config_aborts (w : World) (v : String) (hmem : v ∈ required_vars)
    (hmiss : truthy (w.env v) = false) :
    validate_environment w.env = none ∧ main w = ([], .configFailure) := by
  have h := validate_environment_eq_none w.env v hmem hmiss
  exact ⟨h, main_eq_configFailure w h⟩

/-- Witness for C4: a concrete run with `S3_BUCKET` absent. -/
theorem C4_missing_config_aborts_witness :
    "S3_BUCKET" ∈ required_vars ∧
    truthy (missingEnvWorld.env "S3_BUCKET") = false ∧
    (validate_environment missingEnvWorld.env = none ∧
     main missingEnvWorld = ([], .configFailure)) :=
  ⟨by decide, rfl, C4_missing_config_aborts missingEnvWorld "S3_BUCKET" (by decide) rfl⟩

/-- Claim C10: a required variable present but equal to the empty string
is treated exactly like an absent one, because line 11 tests truthiness
(`not os.environ.get(var)`): the run exits with non-zero status and an
empty trace. -/
theorem C10_empty_string_config_aborts (w : World) (v : String) (hmem : v ∈ required_vars)
    (hempty : w.env v = some "") :
    validate_environment w.env = none ∧ main w = ([], .configFailure) := by
  have hmiss : truthy (w.env v) = false := by rw [hempty]; rfl
  have h := validate_environment_eq_none w.env v hmem hmiss
  exact ⟨h, main_eq_configFailure w h⟩

/-- Witness for C10: a concrete run with `S3_BUCKET` set to `""`. -/
theorem C10_empty_string_config_aborts_witness :
    "S3_BUCKET" ∈ required_vars ∧
    emptyEnvWorld.env "S3_BUCKET" = some "" ∧
    (validate_environment emptyEnvWorld.env = none ∧
     main emptyEnvWorld = ([], .configFailure)) :=
  ⟨by decide, rfl, C10_empty_string_config_aborts emptyEnvWorld "S3_BUCKET" (by decide) rfl⟩

/-- Claim C5: the enumerator has exactly three outcomes.  Directory
absent: `sys.exit(1)` (and the run ends as `dirMissing` with an empty
trace).  Directory present, no match: `sys.exit(0)` (run ends as
`nothingToDo`, empty trace, i.e. no external call).  Otherwise the
returned list is the `*.jpg` enumeration followed by the `*.png`
enumeration — one extension class then the other, not sorted by name
(the witness exhibits an unsorted result `["b.jpg", "a.png"]`). -/
theorem C5_enumerator_outcomes (w : World) (config : Config) :
    (w.fs.imagesDirExists = false →
      get_image_files w.fs = .exitFail ∧
      (validate_environment w.env = some config → main w = ([], .dirMissing))) ∧
    (w.fs.imagesDirExists = true → w.fs.jpgFiles ++ w.fs.pngFiles = [] →
      get_image_files w.fs = .exitSuccess ∧
      (validate_environment w.env = some config → main w = ([], .nothingToDo))) ∧
    (w.fs.imagesDirExists = true → w.fs.jpgFiles ++ w.fs.pngFiles ≠ [] →
      get_image_files w.fs = .files (w.fs.jpgFiles ++ w.fs.pngFiles)) := by
  refine ⟨?_, ?_, ?_⟩
  · intro hdir
    have hg : get_image_files w.fs = .exitFail := by simp [get_image_files, hdir]
    exact ⟨hg, fun hv => by simp [main, hv, hg]⟩
  · intro hdir hempty
    have hg : get_image_files w.fs = .exitSuccess := by
      simp [get_image_files, hdir, hempty]
    exact ⟨hg, fun hv => by simp [main, hv, hg]⟩
  · intro hdir hne
    simp [get_image_files, hdir, hne]

/-- Witness for C5: on `happyWorld`'s filesystem the match set is
non-empty and the returned order is `["b.jpg", "a.png"]`, the jpg class
before the png class (not name-sorted). -/
theorem C5_enumerator_outcomes_witness :
    happyWorld.fs.imagesDirExists = true ∧
    happyWorld.fs.jpgFiles ++ happyWorld.fs.pngFiles ≠ [] ∧
    get_image_files happyWorld.fs =
      .files (happyWorld.fs.jpgFiles ++ happyWorld.fs.pngFiles) :=
  ⟨rfl, by decide, (C5_enumerator_outcomes happyWorld happyConfig).2.2 rfl (by decide)⟩

/-- Claim C7: the analyze step always issues exactly one `detect_labels`
call that references the stored object by `(bucket, key)` — the event
carries no image bytes, only the reference — with the fixed call-time
bounds `MaxLabels=10` and `MinConfidence=70`. -/
theorem C7_analyze_by_reference (w : World) (bucket s3_key : String) :
    (analyze_image_with_rekognition w bucket s3_key).1 =
      [Event.detectLabels bucket s3_key 10 70] := rfl

/-- Claim C8: for a returned confidence in `[0, 100]`, the stored value
`round2 q` (Python `round(q, 2)`) lies in `[0, 100]` and is an exact
multiple of `1/100`, i.e. has exactly 2 decimal places. -/
theorem C8_confidence_rounding (q : ℚ) (h0 : 0 ≤ q) (h1 : q ≤ 100) :
    0 ≤ round2 q ∧ round2 q ≤ 100 ∧ ∃ k : ℤ, round2 q = (k : ℚ) / 100 := by
  have hnn : 0 ≤ roundHalfEven (q * 100) :=
    roundHalfEven_nonneg _ (by positivity)
  have hle : roundHalfEven (q * 100) ≤ 10000 := by
    refine roundHalfEven_le _ 10000 ?_
    push_cast
    linarith
  refine ⟨?_, ?_, ⟨roundHalfEven (q * 100), rfl⟩⟩
  · unfold round2
    have : (0 : ℚ) ≤ (roundHalfEven (q * 100) : ℚ) := by exact_mod_cast hnn
    positivity
  · unfold round2
    rw [div_le_iff₀ (by norm_num : (0:ℚ) < 100)]
    have : ((roundHalfEven (q * 100) : ℤ) : ℚ) ≤ 10000 := by exact_mod_cast hle
    linarith

/-- Witness for C8 at the concrete in-range confidence 250/3. -/
theorem C8_confidence_rounding_witness :
    0 ≤ (250/3 : ℚ) ∧ (250/3 : ℚ) ≤ 100 ∧
    (0 ≤ round2 (250/3) ∧ round2 (250/3) ≤ 100 ∧
     ∃ k : ℤ, round2 (250/3) = (k : ℚ) / 100) :=
  ⟨by norm_num, by norm_num, C8_confidence_rounding (250/3) (by norm_num) (by norm_num)⟩

/-- Claim C9: the stored label list has one entry per returned label,
with the same name, in exactly the Vision Client's return order — the
formatting comprehension is an order-preserving map and nothing
re-sorts. -/
theorem C9_labels_order_preserved (rawLabels : List RawLabel) :
    (formatLabels rawLabels).map Label.name = rawLabels.map RawLabel.name ∧
    (formatLabels rawLabels).length = rawLabels.length := by
  constructor
  · simp [formatLabels, List.map_map]
  · simp [formatLabels]

/-- Claim C1: once the per-file loop is reached (configuration valid,
non-empty file list), the run always ends `completed` (exit status 0,
summary printed) no matter which per-file steps fail; every enumerated
file is attempted (its upload call is in the trace); and whenever the
pipeline for a file raises, the failure is logged and the loop goes on. -/
theorem C1_per_file_isolation (w : World) (config : Config) (names : List String)
    (h1 : validate_environment w.env = some config)
    (h2 : get_image_files w.fs = .files names) :
    (main w).2 = .completed ∧
    (∀ n ∈ names,
      Event.s3Upload ("images/" ++ n) config.bucket ("rekognition-input/" ++ n) ∈
        (main w).1) ∧
    (∀ (l1 : List String) (n : String) (l2 : List String) (e : String),
      names = l1 ++ n :: l2 →
      (process_single_image w (clockAfter w config 0 l1) n config).2.2 = .error e →
      Event.logFailure n e ∈ (main w).1) := by
  have hm : main w = ((runLoop w config 0 names).1, .completed) := by
    simp [main, h1, h2]
  rw [hm]
  refine ⟨rfl, ?_, ?_⟩
  · intro n hn
    exact runLoop_upload_mem w config names 0 n hn
  · intro l1 n l2 e hsplit hfail
    rw [hsplit]
    exact runLoop_logs_failure w config l1 0 n l2 e hfail

/-- Witness for C1: the two-file run of `happyWorld`, where `a.png`
fails at the analyze step, still completes. -/
theorem C1_per_file_isolation_witness :
    validate_environment happyWorld.env = some happyConfig ∧
    get_image_files happyWorld.fs = .files ["b.jpg", "a.png"] ∧
    ((main happyWorld).2 = .completed ∧
     (∀ n ∈ ["b.jpg", "a.png"],
       Event.s3Upload ("images/" ++ n) happyConfig.bucket ("rekognition-input/" ++ n) ∈
         (main happyWorld).1) ∧
     (∀ (l1 : List String) (n : String) (l2 : List String) (e : String),
       ["b.jpg", "a.png"] = l1 ++ n :: l2 →
       (process_single_image happyWorld (clockAfter happyWorld happyConfig 0 l1) n
           happyConfig).2.2 = .error e →
       Event.logFailure n e ∈ (main happyWorld).1)) :=
  ⟨rfl, rfl, C1_per_file_isolation happyWorld happyConfig ["b.jpg", "a.png"] rfl rfl⟩

/-- Claim C2: a successfully processed file produces exactly three
external calls — one upload, one label detection, one record write — in
that order, all three using the derived key
`rekognition-input/` ++ basename (the record write stores that same key
in its `filename` attribute). -/
theorem C2_success_trace (w : World) (clock : Nat) (imageName : String) (config : Config)
    (h : (process_single_image w clock imageName config).2.2 = .ok ()) :
    ∃ rawLabels : List RawLabel,
      w.detectResult config.bucket ("rekognition-input/" ++ imageName) = .ok rawLabels ∧
      (process_single_image w clock imageName config).1 =
        [Event.s3Upload ("images/" ++ imageName) config.bucket
           ("rekognition-input/" ++ imageName),
         Event.detectLabels config.bucket ("rekognition-input/" ++ imageName) 10 70,
         Event.dynamoPut config.dynamodb_table
           (marshallItem
             { filename := "rekognition-input/" ++ imageName,
               timestamp := w.utcNowIso clock ++ "Z",
               labels := formatLabels rawLabels,
               branch := config.branch_name })] := by
  rcases hu : w.uploadResult ("images/" ++ imageName) config.bucket
      ("rekognition-input/" ++ imageName) with e | u
  · rw [process_upload_error w clock imageName config e hu] at h
    simp at h
  · rcases hd : w.detectResult config.bucket ("rekognition-input/" ++ imageName) with
      e | rawLabels
    · rw [process_detect_error w clock imageName config u e hu hd] at h
      simp at h
    · refine ⟨rawLabels, rfl, ?_⟩
      rw [process_detect_ok w clock imageName config u rawLabels hu hd]

/-- Witness for C2: `b.jpg` is processed successfully in `happyWorld`. -/
theorem C2_success_trace_witness :
    (process_single_image happyWorld 0 "b.jpg" happyConfig).2.2 = .ok () ∧
    (∃ rawLabels : List RawLabel,
      happyWorld.detectResult happyConfig.bucket ("rekognition-input/" ++ "b.jpg") =
        .ok rawLabels ∧
      (process_single_image happyWorld 0 "b.jpg" happyConfig).1 =
        [Event.s3Upload ("images/" ++ "b.jpg") happyConfig.bucket
           ("rekognition-input/" ++ "b.jpg"),
         Event.detectLabels happyConfig.bucket ("rekognition-input/" ++ "b.jpg") 10 70,
         Event.dynamoPut happyConfig.dynamodb_table
           (marshallItem
             { filename := "rekognition-input/" ++ "b.jpg",
               timestamp := happyWorld.utcNowIso 0 ++ "Z",
               labels := formatLabels rawLabels,
               branch := happyConfig.branch_name })]) :=
  ⟨rfl, C2_success_trace happyWorld 0 "b.jpg" happyConfig rfl⟩

/-- Claim C3: when the analyze step fails for a file (upload succeeded,
`detect_labels` raised), the file's trace is exactly the upload call
and the failed detection call — no record write is ever submitted for
it and no deletion of the already-uploaded object occurs — and every
following file in the loop is still attempted. -/
theorem C3_analyze_failure (w : World) (clock : Nat) (imageName : String) (config : Config)
    (rest : List String) (u : Unit) (e : String)
    (hu : w.uploadResult ("images/" ++ imageName) config.bucket
            ("rekognition-input/" ++ imageName) = .ok u)
    (hd : w.detectResult config.bucket ("rekognition-input/" ++ imageName) = .error e) :
    process_single_image w clock imageName config =
      ([Event.s3Upload ("images/" ++ imageName) config.bucket
          ("rekognition-input/" ++ imageName),
        Event.detectLabels config.bucket ("rekognition-input/" ++ imageName) 10 70],
       clock, .error e) ∧
    (∀ (table : String) (item : List (String × AttrVal)),
      Event.dynamoPut table item ∉ (process_single_image w clock imageName config).1) ∧
    (∀ (b k : String),
      Event.s3Delete b k ∉ (process_single_image w clock imageName config).1) ∧
    (∀ m ∈ rest,
      Event.s3Upload ("images/" ++ m) config.bucket ("rekognition-input/" ++ m) ∈
        (runLoop w config clock (imageName :: rest)).1) := by
  have hp := process_detect_error w clock imageName config u e hu hd
  refine ⟨hp, ?_, ?_, ?_⟩
  · intro table item hmem
    rw [hp] at hmem
    simp at hmem
  · intro b k hmem
    rw [hp] at hmem
    simp at hmem
  · intro m hm
    exact runLoop_upload_mem w config _ clock m (List.mem_cons_of_mem _ hm)

/-- Witness for C3: in `happyWorld`, `a.png` fails at the analyze step
with error `"boom"`, and the following file `b.jpg` is still uploaded. -/
theorem C3_analyze_failure_witness :
    happyWorld.uploadResult ("images/" ++ "a.png") happyConfig.bucket
        ("rekognition-input/" ++ "a.png") = .ok () ∧
    happyWorld.detectResult happyConfig.bucket ("rekognition-input/" ++ "a.png") =
      .error "boom" ∧
    (process_single_image happyWorld 0 "a.png" happyConfig =
       ([Event.s3Upload ("images/" ++ "a.png") happyConfig.bucket
           ("rekognition-input/" ++ "a.png"),
         Event.detectLabels happyConfig.bucket ("rekognition-input/" ++ "a.png") 10 70],
        0, .error "boom") ∧
     (∀ (table : String) (item : List (String × AttrVal)),
       Event.dynamoPut table item ∉ (process_single_image happyWorld 0 "a.png" happyConfig).1) ∧
     (∀ (b k : String),
       Event.s3Delete b k ∉ (process_single_image happyWorld 0 "a.png" happyConfig).1) ∧
     (∀ m ∈ ["b.jpg"],
       Event.s3Upload ("images/" ++ m) happyConfig.bucket ("rekognition-input/" ++ m) ∈
         (runLoop happyWorld happyConfig 0 ("a.png" :: ["b.jpg"])).1)) :=
  ⟨rfl, rfl, C3_analyze_failure happyWorld 0 "a.png" happyConfig ["b.jpg"] () "boom" rfl rfl⟩

/-- Claim C6: a record that completes carries the submitted filename
(the derived storage key), a timestamp generated at write time
(`utcnow().isoformat() + 'Z'` at the record step's clock), the run's
branch label, and exactly one `put_item` call whose `labels` attribute
is the single string `json.dumps(labels)` — an opaque textual blob, not
structured sub-fields; the item carries the `(filename, timestamp)`
attribute pair that keys the record. -/
theorem C6_record_contents (w : World) (clock : Nat) (table_name filename : String)
    (labels : List Label) (branch_name : String) (item : ResultItem)
    (h : (store_results_in_dynamodb w clock table_name filename labels
            branch_name).2.2 = .ok item) :
    item.filename = filename ∧
    item.timestamp = w.utcNowIso clock ++ "Z" ∧
    item.branch = branch_name ∧
    item.labels = labels ∧
    (store_results_in_dynamodb w clock table_name filename labels branch_name).1 =
      [Event.dynamoPut table_name
        [("filename", AttrVal.S filename),
         ("timestamp", AttrVal.S (w.utcNowIso clock ++ "Z")),
         ("labels", AttrVal.S (dumpsLabels labels)),
         ("branch", AttrVal.S branch_name)]] := by
  simp only [store_results_in_dynamodb] at h
  rcases hp : w.putItemResult table_name
      (marshallItem
        { filename := filename, timestamp := w.utcNowIso clock ++ "Z",
          labels := labels, branch := branch_name }) with e | u
  · rw [hp] at h
    simp at h
  · rw [hp] at h
    simp only [Except.ok.injEq] at h
    subst h
    exact ⟨rfl, rfl, rfl, rfl, by simp [store_results_in_dynamodb, marshallItem]⟩

/-- Witness for C6: a concrete successful record write in `happyWorld`. -/
theorem C6_record_contents_witness :
    (store_results_in_dynamodb happyWorld 0 "tbl" "rekognition-input/b.jpg"
        [{ name := "Cat", confidence := 977/10 }] "main-branch").2.2 =
      .ok { filename := "rekognition-input/b.jpg",
            timestamp := happyWorld.utcNowIso 0 ++ "Z",
            labels := [{ name := "Cat", confidence := 977/10 }],
            branch := "main-branch" } ∧
    ((ResultItem.filename
        { filename := "rekognition-input/b.jpg",
          timestamp := happyWorld.utcNowIso 0 ++ "Z",
          labels := [{ name := "Cat", confidence := 977/10 }],
          branch := "main-branch" }) = "rekognition-input/b.jpg" ∧
     (ResultItem.timestamp
        { filename := "rekognition-input/b.jpg",
          timestamp := happyWorld.utcNowIso 0 ++ "Z",
          labels := [{ name := "Cat", confidence := 977/10 }],
          branch := "main-branch" }) = happyWorld.utcNowIso 0 ++ "Z" ∧
     (ResultItem.branch
        { filename := "rekognition-input/b.jpg",
          timestamp := happyWorld.utcNowIso 0 ++ "Z",
          labels := [{ name := "Cat", confidence := 977/10 }],
          branch := "main-branch" }) = "main-branch" ∧
     (ResultItem.labels
        { filename := "rekognition-input/b.jpg",
          timestamp := happyWorld.utcNowIso 0 ++ "Z",
          labels := [{ name := "Cat", confidence := 977/10 }],
          branch := "main-branch" }) = [{ name := "Cat", confidence := 977/10 }] ∧
     (store_results_in_dynamodb happyWorld 0 "tbl" "rekognition-input/b.jpg"
        [{ name := "Cat", confidence := 977/10 }] "main-branch").1 =
       [Event.dynamoPut "tbl"
         [("filename", AttrVal.S "rekognition-input/b.jpg"),
          ("timestamp", AttrVal.S (happyWorld.utcNowIso 0 ++ "Z")),
          ("labels", AttrVal.S (dumpsLabels [{ name := "Cat", confidence := 977/10 }])),
          ("branch", AttrVal.S "main-branch")]]) :=
  ⟨rfl, C6_record_contents happyWorld 0 "tbl" "rekognition-input/b.jpg"
     [{ name := "Cat", confidence := 977/10 }] "main-branch"
     { filename := "rekognition-input/b.jpg",
       timestamp := happyWorld.utcNowIso 0 ++ "Z",
       labels := [{ name := "Cat", confidence := 977/10 }],
       branch := "main-branch" } rfl⟩

end RekognitionPipeline
